import Mathlib

/-!
Shallow embedding of src/ledc/channel.rs from the bugadani/esp32-hal
repository: the LEDC PWM channel driver, with its duty-cycle computation,
channel-to-timer binding, and the per-speed-domain hardware write
sequences.

Hardware register writes and output-pin operations are modelled as a trace
of events (a List HWEvent) emitted in exactly the order the code performs
them.  The f32 arithmetic in set_duty is embedded over the rationals: the
float operations performed there are multiplication of duty_pct by the
power of two duty_range (exact in IEEE-754 binary32 for every in-range
input, since multiplying by a power of two only shifts the exponent), the
comparison with 1.0 (exact), and the Rust saturating numeric cast to u32
(truncation toward zero, with negative values and NaN mapped to 0 and
values above u32::MAX mapped to u32::MAX).  Every finite f32 value is a
rational, so quantifying over ℚ covers all actual f32 inputs.
-/

namespace Esp32Ledc

/-- Channel errors (enum Error in channel.rs). -/
inductive Error where
  | Duty
  | Timer
  | Channel
deriving DecidableEq, Repr

/-- Channel number (enum Number in channel.rs). -/
inductive Number where
  | Channel0
  | Channel1
  | Channel2
  | Channel3
  | Channel4
  | Channel5
  | Channel6
  | Channel7
deriving DecidableEq, Repr

/-- The numeric index of a channel number (which of the 8 register slots
within a speed domain the channel controls). -/
def Number.toNat : Number → Nat
  | .Channel0 => 0
  | .Channel1 => 1
  | .Channel2 => 2
  | .Channel3 => 3
  | .Channel4 => 4
  | .Channel5 => 5
  | .Channel6 => 6
  | .Channel7 => 7

/-- The speed-domain marker types HighSpeed and LowSpeed (from ledc/mod.rs),
made into a value-level tag selecting which ChannelHW impl applies. -/
inductive Speed where
  | HighSpeed
  | LowSpeed
deriving DecidableEq, Repr

/-- Modelled from the spec: the Timer capability (trait TimerIFace; the
file src/ledc/timer.rs is not under src/).  Per the spec it exposes
is_configured, get_number (its numeric identity within its speed domain)
and get_duty (its duty resolution in bits, or none when not configured). -/
structure TimerModel where
  is_configured : Bool
  get_number : Nat
  get_duty : Option Nat
deriving DecidableEq, Repr

/-- The GPIO output-signal identifiers used by channel.rs
(OutputSignal in gpio, one fixed line per (speed domain, channel number)). -/
inductive OutputSignal where
  | LEDC_HS_SIG_0
  | LEDC_HS_SIG_1
  | LEDC_HS_SIG_2
  | LEDC_HS_SIG_3
  | LEDC_HS_SIG_4
  | LEDC_HS_SIG_5
  | LEDC_HS_SIG_6
  | LEDC_HS_SIG_7
  | LEDC_LS_SIG_0
  | LEDC_LS_SIG_1
  | LEDC_LS_SIG_2
  | LEDC_LS_SIG_3
  | LEDC_LS_SIG_4
  | LEDC_LS_SIG_5
  | LEDC_LS_SIG_6
  | LEDC_LS_SIG_7
deriving DecidableEq, Repr

/-- One observable hardware action of channel.rs: a write to a per-channel
LEDC register, the LowSpeed parameter-commit pulse, or an output-pin
operation.  Field values are recorded exactly as the code computes them. -/
inductive HWEvent where
  | setPushPull
  | writeHpoint (speed : Speed) (num : Nat) (v : Nat)
  | modifyConf0 (speed : Speed) (num : Nat) (sig_out_en : Bool) (timer_sel : Nat)
  | writeConf1 (speed : Speed) (num : Nat) (duty_start : Bool) (duty_inc : Bool)
      (duty_num : Nat) (duty_cycle : Nat) (duty_scale : Nat)
  | paraUp (num : Nat)
  | connect (sig : OutputSignal)
  | writeDuty (speed : Speed) (num : Nat) (v : Nat)
deriving DecidableEq, Repr

/-- The Channel struct of channel.rs.  The RegisterBlock pointer and the
output pin are not data the code reads; their writes appear in the event
trace instead.  The speed field stands for the type parameter S. -/
structure Channel where
  speed : Speed
  timer : Option TimerModel
  number : Number
deriving DecidableEq, Repr

/-- Channel configuration (config::Config in channel.rs): a timer
reference and a requested duty fraction. -/
structure Config where
  timer : TimerModel
  duty_pct : ℚ

/-- Channel::new: a fresh channel has no timer bound and no hardware
side effect. -/
def Channel.new (speed : Speed) (number : Number) : Channel :=
  { speed := speed, timer := none, number := number }

/-- Rust numeric cast from f32 to u32 (the expression `value as u32`),
acting on the rational the float represents: truncation toward zero,
saturating at 0 below and at u32::MAX above. -/
def f32CastU32 (x : ℚ) : Nat :=
  if x ≤ 0 then 0 else min (Int.toNat (Int.floor x)) (2 ^ 32 - 1)

/-- The set_channel! macro of channel.rs: write hpoint := 0, modify conf0
setting sig_out_en and the timer_sel field to the bound timer's number,
write conf1 with duty_start set, duty_inc set, duty_num 1, duty_cycle 1,
duty_scale 0. -/
def set_channel (speed : Speed) (num : Nat) (channel_number : Nat) : List HWEvent :=
  [ HWEvent.writeHpoint speed num 0,
    HWEvent.modifyConf0 speed num true channel_number,
    HWEvent.writeConf1 speed num true true 1 1 0 ]

/-- The update_channel! macro of channel.rs (LowSpeed only): set the
para_up bit of the channel's conf0 register. -/
def update_channel (num : Nat) : List HWEvent :=
  [ HWEvent.paraUp num ]

/-- The set_duty! macro of channel.rs: write `duty << 4` into the
channel's duty register.  The shift is on u32, hence the mod 2^32. -/
def set_duty_reg (speed : Speed) (num : Nat) (duty : Nat) : HWEvent :=
  HWEvent.writeDuty speed num ((duty <<< 4) % 2 ^ 32)

/-- ChannelHW::set_duty_hw, both impls (HighSpeed and LowSpeed): dispatch
on the channel number and invoke set_duty! on the matching register. -/
def set_duty_hw (ch : Channel) (duty : Nat) : HWEvent :=
  match ch.speed, ch.number with
  | Speed.HighSpeed, Number.Channel0 => set_duty_reg Speed.HighSpeed 0 duty
  | Speed.HighSpeed, Number.Channel1 => set_duty_reg Speed.HighSpeed 1 duty
  | Speed.HighSpeed, Number.Channel2 => set_duty_reg Speed.HighSpeed 2 duty
  | Speed.HighSpeed, Number.Channel3 => set_duty_reg Speed.HighSpeed 3 duty
  | Speed.HighSpeed, Number.Channel4 => set_duty_reg Speed.HighSpeed 4 duty
  | Speed.HighSpeed, Number.Channel5 => set_duty_reg Speed.HighSpeed 5 duty
  | Speed.HighSpeed, Number.Channel6 => set_duty_reg Speed.HighSpeed 6 duty
  | Speed.HighSpeed, Number.Channel7 => set_duty_reg Speed.HighSpeed 7 duty
  | Speed.LowSpeed, Number.Channel0 => set_duty_reg Speed.LowSpeed 0 duty
  | Speed.LowSpeed, Number.Channel1 => set_duty_reg Speed.LowSpeed 1 duty
  | Speed.LowSpeed, Number.Channel2 => set_duty_reg Speed.LowSpeed 2 duty
  | Speed.LowSpeed, Number.Channel3 => set_duty_reg Speed.LowSpeed 3 duty
  | Speed.LowSpeed, Number.Channel4 => set_duty_reg Speed.LowSpeed 4 duty
  | Speed.LowSpeed, Number.Channel5 => set_duty_reg Speed.LowSpeed 5 duty
  | Speed.LowSpeed, Number.Channel6 => set_duty_reg Speed.LowSpeed 6 duty
  | Speed.LowSpeed, Number.Channel7 => set_duty_reg Speed.LowSpeed 7 duty

/-- ChannelIFace::set_duty of channel.rs.  Takes the channel by shared
reference (&self), so the channel itself is never modified; the result is
the returned Result together with the hardware writes performed.
duty_range is 2_u32.pow(duty_exp); the timer resolutions the driver
consumes keep duty_exp at most 20, so the u32 power does not overflow and
is modelled as the exact power of two. -/
def set_duty (ch : Channel) (duty_pct : ℚ) : Except Error Unit × List HWEvent :=
  match ch.timer with
  | none => (Except.error Error.Channel, [])
  | some timer =>
    match timer.get_duty with
    | none => (Except.error Error.Timer, [])
    | some timer_duty =>
      let duty_exp : Nat := timer_duty
      let duty_range : Nat := 2 ^ duty_exp
      let duty_value : Nat := f32CastU32 ((duty_range : ℚ) * duty_pct)
      if duty_value = 0 ∨ duty_pct > 1 then
        (Except.error Error.Duty, [])
      else
        (Except.ok (), [set_duty_hw ch duty_value])

/-- ChannelHW::configure_hw, both impls.  HighSpeed (channel.rs lines
181-229): check the bound timer, set the pin to push-pull, run
set_channel! for the channel's slot, connect the pin to the fixed
LEDC_HS_SIG line.  LowSpeed (lines 249-305): the same but with
update_channel! between set_channel! and the pin connection. -/
def configure_hw (ch : Channel) : Except Error Unit × List HWEvent :=
  match ch.timer with
  | some timer =>
    if !timer.is_configured then
      (Except.error Error.Timer, [])
    else
      let channel_number := timer.get_number
      match ch.speed with
      | Speed.HighSpeed =>
        let evs :=
          match ch.number with
          | Number.Channel0 =>
            set_channel Speed.HighSpeed 0 channel_number
              ++ [HWEvent.connect OutputSignal.LEDC_HS_SIG_0]
          | Number.Channel1 =>
            set_channel Speed.HighSpeed 1 channel_number
              ++ [HWEvent.connect OutputSignal.LEDC_HS_SIG_1]
          | Number.Channel2 =>
            set_channel Speed.HighSpeed 2 channel_number
              ++ [HWEvent.connect OutputSignal.LEDC_HS_SIG_2]
          | Number.Channel3 =>
            set_channel Speed.HighSpeed 3 channel_number
              ++ [HWEvent.connect OutputSignal.LEDC_HS_SIG_3]
          | Number.Channel4 =>
            set_channel Speed.HighSpeed 4 channel_number
              ++ [HWEvent.connect OutputSignal.LEDC_HS_SIG_4]
          | Number.Channel5 =>
            set_channel Speed.HighSpeed 5 channel_number
              ++ [HWEvent.connect OutputSignal.LEDC_HS_SIG_5]
          | Number.Channel6 =>
            set_channel Speed.HighSpeed 6 channel_number
              ++ [HWEvent.connect OutputSignal.LEDC_HS_SIG_6]
          | Number.Channel7 =>
            set_channel Speed.HighSpeed 7 channel_number
              ++ [HWEvent.connect OutputSignal.LEDC_HS_SIG_7]
        (Except.ok (), HWEvent.setPushPull :: evs)
      | Speed.LowSpeed =>
        let evs :=
          match ch.number with
          | Number.Channel0 =>
            set_channel Speed.LowSpeed 0 channel_number ++ update_channel 0
              ++ [HWEvent.connect OutputSignal.LEDC_LS_SIG_0]
          | Number.Channel1 =>
            set_channel Speed.LowSpeed 1 channel_number ++ update_channel 1
              ++ [HWEvent.connect OutputSignal.LEDC_LS_SIG_1]
          | Number.Channel2 =>
            set_channel Speed.LowSpeed 2 channel_number ++ update_channel 2
              ++ [HWEvent.connect OutputSignal.LEDC_LS_SIG_2]
          | Number.Channel3 =>
            set_channel Speed.LowSpeed 3 channel_number ++ update_channel 3
              ++ [HWEvent.connect OutputSignal.LEDC_LS_SIG_3]
          | Number.Channel4 =>
            set_channel Speed.LowSpeed 4 channel_number ++ update_channel 4
              ++ [HWEvent.connect OutputSignal.LEDC_LS_SIG_4]
          | Number.Channel5 =>
            set_channel Speed.LowSpeed 5 channel_number ++ update_channel 5
              ++ [HWEvent.connect OutputSignal.LEDC_LS_SIG_5]
          | Number.Channel6 =>
            set_channel Speed.LowSpeed 6 channel_number ++ update_channel 6
              ++ [HWEvent.connect OutputSignal.LEDC_LS_SIG_6]
          | Number.Channel7 =>
            set_channel Speed.LowSpeed 7 channel_number ++ update_channel 7
              ++ [HWEvent.connect OutputSignal.LEDC_LS_SIG_7]
        (Except.ok (), HWEvent.setPushPull :: evs)
  | none => (Except.error Error.Timer, [])

/-- ChannelIFace::configure of channel.rs: store the timer binding
unconditionally, then set_duty, then configure_hw, each ? propagating the
first error; the returned channel is the state of self afterwards. -/
def configure (ch : Channel) (config : Config) : Channel × Except Error Unit × List HWEvent :=
  let ch1 : Channel := { ch with timer := some config.timer }
  match set_duty ch1 config.duty_pct with
  | (Except.error e, evs) => (ch1, Except.error e, evs)
  | (Except.ok _, evs1) =>
    match configure_hw ch1 with
    | (Except.error e, evs2) => (ch1, Except.error e, evs1 ++ evs2)
    | (Except.ok _, evs2) => (ch1, Except.ok (), evs1 ++ evs2)

/-- Whether an event is a write to one of the channel's own LEDC
registers (hpoint, conf0, conf1, duty); the para_up commit pulse and the
pin operations are not counted. -/
def isChannelRegWrite : HWEvent → Bool
  | HWEvent.writeHpoint _ _ _ => true
  | HWEvent.modifyConf0 _ _ _ _ => true
  | HWEvent.writeConf1 _ _ _ _ _ _ _ => true
  | HWEvent.writeDuty _ _ _ => true
  | _ => false

/-- Whether an event is the LowSpeed parameter-commit pulse. -/
def isParaUp : HWEvent → Bool
  | HWEvent.paraUp _ => true
  | _ => false

/-- The fixed output-signal line of each (speed domain, channel number)
pair, as hard-wired in the two configure_hw match statements. -/
def signal_of : Speed → Number → OutputSignal
  | Speed.HighSpeed, Number.Channel0 => OutputSignal.LEDC_HS_SIG_0
  | Speed.HighSpeed, Number.Channel1 => OutputSignal.LEDC_HS_SIG_1
  | Speed.HighSpeed, Number.Channel2 => OutputSignal.LEDC_HS_SIG_2
  | Speed.HighSpeed, Number.Channel3 => OutputSignal.LEDC_HS_SIG_3
  | Speed.HighSpeed, Number.Channel4 => OutputSignal.LEDC_HS_SIG_4
  | Speed.HighSpeed, Number.Channel5 => OutputSignal.LEDC_HS_SIG_5
  | Speed.HighSpeed, Number.Channel6 => OutputSignal.LEDC_HS_SIG_6
  | Speed.HighSpeed, Number.Channel7 => OutputSignal.LEDC_HS_SIG_7
  | Speed.LowSpeed, Number.Channel0 => OutputSignal.LEDC_LS_SIG_0
  | Speed.LowSpeed, Number.Channel1 => OutputSignal.LEDC_LS_SIG_1
  | Speed.LowSpeed, Number.Channel2 => OutputSignal.LEDC_LS_SIG_2
  | Speed.LowSpeed, Number.Channel3 => OutputSignal.LEDC_LS_SIG_3
  | Speed.LowSpeed, Number.Channel4 => OutputSignal.LEDC_LS_SIG_4
  | Speed.LowSpeed, Number.Channel5 => OutputSignal.LEDC_LS_SIG_5
  | Speed.LowSpeed, Number.Channel6 => OutputSignal.LEDC_LS_SIG_6
  | Speed.LowSpeed, Number.Channel7 => OutputSignal.LEDC_LS_SIG_7

section Helpers

theorem f32CastU32_of_nonpos {x : ℚ} (h : x ≤ 0) : f32CastU32 x = 0 := by
  simp [f32CastU32, h]

theorem f32CastU32_eq_floor {x : ℚ} (h0 : 0 < x) (h31 : x ≤ 2 ^ 31) :
    f32CastU32 x = Nat.floor x := by
  rw [f32CastU32, if_neg (not_le.mpr h0), Int.floor_toNat]
  refine min_eq_left ?_
  calc Nat.floor x ≤ Nat.floor ((2 : ℚ) ^ 31) := Nat.floor_le_floor h31
    _ = 2 ^ 31 := by
        rw [show ((2 : ℚ) ^ 31) = ((2 ^ 31 : ℕ) : ℚ) by push_cast; ring, Nat.floor_natCast]
    _ ≤ 2 ^ 32 - 1 := by norm_num

theorem f32CastU32_le_floor (x : ℚ) : f32CastU32 x ≤ Nat.floor x := by
  rw [f32CastU32]
  split
  · exact Nat.zero_le _
  · rw [Int.floor_toNat]
    exact min_le_left _ _

theorem set_duty_hw_eq (ch : Channel) (duty : Nat) :
    set_duty_hw ch duty =
      HWEvent.writeDuty ch.speed ch.number.toNat ((duty <<< 4) % 2 ^ 32) := by
  obtain ⟨sp, tm, n⟩ := ch
  cases sp <;> cases n <;> rfl

theorem set_duty_eq_of_bound (ch : Channel) (t : TimerModel) (R : Nat) (f : ℚ)
    (hb : ch.timer = some t) (hres : t.get_duty = some R) :
    set_duty ch f =
      if f32CastU32 ((2 ^ R : ℚ) * f) = 0 ∨ f > 1 then (Except.error Error.Duty, [])
      else (Except.ok (), [set_duty_hw ch (f32CastU32 ((2 ^ R : ℚ) * f))]) := by
  simp only [set_duty, hb, hres]
  norm_cast

theorem set_duty_of_duty_none (ch : Channel) (t : TimerModel) (f : ℚ)
    (hb : ch.timer = some t) (hd : t.get_duty = none) :
    set_duty ch f = (Except.error Error.Timer, []) := by
  simp [set_duty, hb, hd]

theorem set_duty_of_unbound (ch : Channel) (f : ℚ) (hb : ch.timer = none) :
    set_duty ch f = (Except.error Error.Channel, []) := by
  simp [set_duty, hb]

theorem set_duty_timer_error_iff (ch : Channel) (t : TimerModel) (f : ℚ)
    (hb : ch.timer = some t) :
    (set_duty ch f).1 = Except.error Error.Timer ↔ t.get_duty = none := by
  constructor
  · intro h
    cases hd : t.get_duty with
    | none => rfl
    | some R =>
      rw [set_duty_eq_of_bound ch t R f hb hd] at h
      split at h <;> simp_all
  · intro hd
    rw [set_duty_of_duty_none ch t f hb hd]

theorem set_duty_ok_inversion (ch : Channel) (t : TimerModel) (R : Nat) (f : ℚ)
    (evs : List HWEvent) (hb : ch.timer = some t) (hres : t.get_duty = some R)
    (hok : set_duty ch f = (Except.ok (), evs)) :
    f ≤ 1 ∧ f32CastU32 ((2 ^ R : ℚ) * f) ≠ 0 ∧
      evs = [set_duty_hw ch (f32CastU32 ((2 ^ R : ℚ) * f))] := by
  rw [set_duty_eq_of_bound ch t R f hb hres] at hok
  by_cases h : f32CastU32 ((2 ^ R : ℚ) * f) = 0 ∨ f > 1
  · rw [if_pos h] at hok
    exact absurd (congrArg Prod.fst hok) (by simp)
  · rw [if_neg h] at hok
    rw [not_or] at h
    obtain ⟨h0, h1⟩ := h
    rw [not_lt] at h1
    have hevs : evs = [set_duty_hw ch (f32CastU32 ((2 ^ R : ℚ) * f))] := by
      have h2 := congrArg Prod.snd hok
      simpa using h2.symm
    exact ⟨h1, h0, hevs⟩

theorem configure_hw_of_unbound (ch : Channel) (hb : ch.timer = none) :
    configure_hw ch = (Except.error Error.Timer, []) := by
  simp [configure_hw, hb]

theorem configure_hw_of_unconfigured (ch : Channel) (t : TimerModel)
    (hb : ch.timer = some t) (hc : t.is_configured = false) :
    configure_hw ch = (Except.error Error.Timer, []) := by
  simp [configure_hw, hb, hc]

theorem configure_hw_ok_of_configured (ch : Channel) (t : TimerModel)
    (hb : ch.timer = some t) (hc : t.is_configured = true) :
    (configure_hw ch).1 = Except.ok () := by
  obtain ⟨sp, tm, n⟩ := ch
  simp only [Channel.timer] at hb
  subst hb
  cases sp <;> cases n <;> simp [configure_hw, hc]

theorem f32CastU32_le_pow (R : Nat) (f : ℚ) (hf1 : f ≤ 1) :
    f32CastU32 ((2 ^ R : ℚ) * f) ≤ 2 ^ R := by
  calc f32CastU32 ((2 ^ R : ℚ) * f) ≤ Nat.floor ((2 ^ R : ℚ) * f) :=
        f32CastU32_le_floor _
    _ ≤ Nat.floor ((2 ^ R : ℚ)) := by
        apply Nat.floor_le_floor
        calc (2 ^ R : ℚ) * f ≤ (2 ^ R : ℚ) * 1 :=
              mul_le_mul_of_nonneg_left hf1 (by positivity)
          _ = 2 ^ R := mul_one _
    _ = 2 ^ R := by
        rw [show ((2 : ℚ) ^ R) = ((2 ^ R : ℕ) : ℚ) by push_cast; ring, Nat.floor_natCast]

theorem configure_hw_error_inversion (ch : Channel) (t : TimerModel) (e : Error)
    (hb : ch.timer = some t) (he : (configure_hw ch).1 = Except.error e) :
    t.is_configured = false ∧ e = Error.Timer := by
  cases hc : t.is_configured with
  | false =>
    rw [configure_hw_of_unconfigured ch t hb hc] at he
    simp only [Except.error.injEq] at he
    exact ⟨rfl, he.symm⟩
  | true =>
    rw [configure_hw_ok_of_configured ch t hb hc] at he
    cases he

theorem lowspeed_trace_positions (sp : Speed) (n tn : Nat) (sig : OutputSignal)
    (i : Nat) (e : HWEvent)
    (h : ([HWEvent.setPushPull, HWEvent.writeHpoint sp n 0,
           HWEvent.modifyConf0 sp n true tn,
           HWEvent.writeConf1 sp n true true 1 1 0,
           HWEvent.paraUp n, HWEvent.connect sig] : List HWEvent)[i]? = some e)
    (hw : isChannelRegWrite e = true) : i < 4 := by
  rcases i with _|_|_|_|_|_|m
  · simp only [List.getElem?_cons_zero, Option.some.injEq] at h
    subst h
    simp [isChannelRegWrite] at hw
  · omega
  · omega
  · omega
  · simp only [List.getElem?_cons_succ, List.getElem?_cons_zero,
      Option.some.injEq] at h
    subst h
    simp [isChannelRegWrite] at hw
  · simp only [List.getElem?_cons_succ, List.getElem?_cons_zero,
      Option.some.injEq] at h
    subst h
    simp [isChannelRegWrite] at hw
  · simp at h

theorem configure_hw_ls_trace (tm : TimerModel) (n : Number)
    (hc : tm.is_configured = true) :
    (configure_hw ⟨Speed.LowSpeed, some tm, n⟩).2 =
      [HWEvent.setPushPull, HWEvent.writeHpoint Speed.LowSpeed n.toNat 0,
       HWEvent.modifyConf0 Speed.LowSpeed n.toNat true tm.get_number,
       HWEvent.writeConf1 Speed.LowSpeed n.toNat true true 1 1 0,
       HWEvent.paraUp n.toNat,
       HWEvent.connect (signal_of Speed.LowSpeed n)] := by
  cases n <;>
    simp [configure_hw, hc, set_channel, update_channel, Number.toNat, signal_of]

theorem configure_hw_hs_trace (tm : TimerModel) (n : Number)
    (hc : tm.is_configured = true) :
    (configure_hw ⟨Speed.HighSpeed, some tm, n⟩).2 =
      [HWEvent.setPushPull, HWEvent.writeHpoint Speed.HighSpeed n.toNat 0,
       HWEvent.modifyConf0 Speed.HighSpeed n.toNat true tm.get_number,
       HWEvent.writeConf1 Speed.HighSpeed n.toNat true true 1 1 0,
       HWEvent.connect (signal_of Speed.HighSpeed n)] := by
  cases n <;>
    simp [configure_hw, hc, set_channel, Number.toNat, signal_of]

end Helpers

/-- Claim C1: for every resolution R ≥ 1 (at most 31, so the u32 power in
the code does not overflow) and fraction f with 0 < f, set_duty on a
channel whose bound timer reports resolution R computes floor(2^R * f) by
truncation; for f ≤ 1 it succeeds and hands exactly that value to the
hardware write when it is nonzero and returns the Duty error when it is
zero, and for f > 1 it returns the Duty error. -/
theorem set_duty_computes_floor (ch : Channel) (t : TimerModel) (R : Nat) (f : ℚ)
    (hb : ch.timer = some t) (hres : t.get_duty = some R)
    (hR1 : 1 ≤ R) (hR31 : R ≤ 31) (hf : 0 < f) :
    (f ≤ 1 →
      (Nat.floor ((2 ^ R : ℚ) * f) ≠ 0 →
        set_duty ch f =
          (Except.ok (), [set_duty_hw ch (Nat.floor ((2 ^ R : ℚ) * f))])) ∧
      (Nat.floor ((2 ^ R : ℚ) * f) = 0 →
        set_duty ch f = (Except.error Error.Duty, []))) ∧
    (1 < f → set_duty ch f = (Except.error Error.Duty, [])) := by
  rw [set_duty_eq_of_bound ch t R f hb hres]
  constructor
  · intro hf1
    have hx0 : 0 < (2 ^ R : ℚ) * f := mul_pos (by positivity) hf
    have hx31 : (2 ^ R : ℚ) * f ≤ 2 ^ 31 := by
      calc (2 ^ R : ℚ) * f ≤ (2 ^ R : ℚ) * 1 :=
            mul_le_mul_of_nonneg_left hf1 (by positivity)
        _ = 2 ^ R := mul_one _
        _ ≤ 2 ^ 31 := pow_le_pow_right₀ (by norm_num) hR31
    rw [f32CastU32_eq_floor hx0 hx31]
    constructor
    · intro hne
      rw [if_neg]
      rw [not_or]
      exact ⟨hne, not_lt.mpr hf1⟩
    · intro h0
      rw [if_pos (Or.inl h0)]
  · intro h1
    rw [if_pos (Or.inr h1)]

/-- Witness for C1: at resolution 8 with fraction 1/2 the computed duty is
floor(256 * 1/2) = 128 and set_duty writes it (shifted) to hardware. -/
theorem set_duty_computes_floor_witness :
    set_duty ⟨Speed.HighSpeed, some ⟨true, 0, some 8⟩, Number.Channel0⟩ (1/2) =
      (Except.ok (), [HWEvent.writeDuty Speed.HighSpeed 0 2048]) := by
  have h := set_duty_computes_floor
      ⟨Speed.HighSpeed, some ⟨true, 0, some 8⟩, Number.Channel0⟩
      ⟨true, 0, some 8⟩ 8 (1/2) rfl rfl (by norm_num) (by norm_num) (by norm_num)
  have hfl : Nat.floor ((2 ^ 8 : ℚ) * (1/2)) = 128 := by norm_num
  have h2 := (h.1 (by norm_num)).1 (by rw [hfl]; norm_num)
  rw [hfl] at h2
  rw [h2]
  rfl

/-- Claim C2 (amended): every duty value that set_duty accepts and hands
to the hardware write is strictly greater than 0 and at most 2^R, where R
is the resolution the bound timer reports; the upper bound is attained at
fraction 1.0 (see the counterexample for the original strict bound). -/
theorem set_duty_accepted_range (ch : Channel) (t : TimerModel) (R : Nat) (f : ℚ)
    (evs : List HWEvent) (hb : ch.timer = some t) (hres : t.get_duty = some R)
    (hok : set_duty ch f = (Except.ok (), evs)) :
    ∃ v, evs = [set_duty_hw ch v] ∧ 0 < v ∧ v ≤ 2 ^ R := by
  obtain ⟨hf1, hne, hevs⟩ := set_duty_ok_inversion ch t R f evs hb hres hok
  exact ⟨_, hevs, Nat.pos_of_ne_zero hne, f32CastU32_le_pow R f hf1⟩

/-- Witness for C2 (amended): at resolution 8 with fraction 3/4 the
accepted value 192 satisfies 0 < 192 ≤ 2^8. -/
theorem set_duty_accepted_range_witness :
    ∃ v, [HWEvent.writeDuty Speed.HighSpeed 1 3072] =
        [set_duty_hw ⟨Speed.HighSpeed, some ⟨true, 0, some 8⟩, Number.Channel1⟩ v] ∧
      0 < v ∧ v ≤ 2 ^ 8 := by
  apply set_duty_accepted_range _ ⟨true, 0, some 8⟩ 8 (3/4) _ rfl rfl
  rw [set_duty_eq_of_bound _ ⟨true, 0, some 8⟩ 8 (3/4) rfl rfl]
  have hc : f32CastU32 ((2 ^ 8 : ℚ) * (3/4)) = 192 := by
    rw [f32CastU32]
    norm_num
    decide
  rw [hc, if_neg (by norm_num)]
  rfl

/-- Claim C2 counterexample: at resolution 8 with fraction 1.0 the code
computes duty 256 (not 255), accepts it and writes it shifted to the duty
register, although 256 is not strictly less than 2^8. -/
theorem set_duty_full_scale_cex :
    f32CastU32 ((2 ^ 8 : ℚ) * 1) = 256 ∧ ¬ (256 < 2 ^ 8) ∧ (256 : Nat) ≠ 255 ∧
    set_duty ⟨Speed.HighSpeed, some ⟨true, 0, some 8⟩, Number.Channel0⟩ 1 =
      (Except.ok (), [HWEvent.writeDuty Speed.HighSpeed 0 4096]) := by
  have hc : f32CastU32 ((2 ^ 8 : ℚ) * 1) = 256 := by
    rw [f32CastU32]
    norm_num
    decide
  refine ⟨hc, by norm_num, by norm_num, ?_⟩
  rw [set_duty_eq_of_bound _ ⟨true, 0, some 8⟩ 8 1 rfl rfl, hc, if_neg (by norm_num)]
  rfl

/-- Claim C5: set_duty fails with the Channel error when no timer has
ever been bound, and with the Timer error when the bound timer reports no
valid resolution; in both cases the hardware trace is empty. -/
theorem set_duty_missing_timer_spec (ch : Channel) (t : TimerModel) (f : ℚ) :
    (ch.timer = none → set_duty ch f = (Except.error Error.Channel, [])) ∧
    (ch.timer = some t → t.get_duty = none →
      set_duty ch f = (Except.error Error.Timer, [])) :=
  ⟨fun hb => set_duty_of_unbound ch f hb,
   fun hb hd => set_duty_of_duty_none ch t f hb hd⟩

/-- Witness for C5: a fresh channel gives the Channel error; a channel
bound to a timer with no resolution gives the Timer error. -/
theorem set_duty_missing_timer_spec_witness :
    set_duty (Channel.new Speed.HighSpeed Number.Channel0) (1/2) =
      (Except.error Error.Channel, []) ∧
    set_duty ⟨Speed.LowSpeed, some ⟨false, 0, none⟩, Number.Channel1⟩ (1/2) =
      (Except.error Error.Timer, []) :=
  ⟨(set_duty_missing_timer_spec (Channel.new Speed.HighSpeed Number.Channel0)
      ⟨false, 0, none⟩ (1/2)).1 rfl,
   (set_duty_missing_timer_spec _ ⟨false, 0, none⟩ (1/2)).2 rfl rfl⟩

/-- Claim C8: every duty value accepted by set_duty is written by
set_duty_hw left-shifted by 4 bits into the channel's duty register, in
both speed domains, so the low 4 bits of the written value are zero.  The
resolution bound keeps the u32 shift from wrapping (the timers the driver
consumes report at most 20 bits). -/
theorem set_duty_hw_shifted_write (ch : Channel) (t : TimerModel) (R : Nat) (f : ℚ)
    (evs : List HWEvent) (hb : ch.timer = some t) (hres : t.get_duty = some R)
    (hR : R ≤ 27) (hok : set_duty ch f = (Except.ok (), evs)) :
    ∃ v, 0 < v ∧
      evs = [HWEvent.writeDuty ch.speed ch.number.toNat (v * 2 ^ 4)] ∧
      (v * 2 ^ 4) % 2 ^ 4 = 0 := by
  obtain ⟨hf1, hne, hevs⟩ := set_duty_ok_inversion ch t R f evs hb hres hok
  have hle : f32CastU32 ((2 ^ R : ℚ) * f) ≤ 2 ^ R := f32CastU32_le_pow R f hf1
  have h27 : (2 : ℕ) ^ R ≤ 2 ^ 27 := Nat.pow_le_pow_right (by norm_num) hR
  have hlt : f32CastU32 ((2 ^ R : ℚ) * f) * 2 ^ 4 < 2 ^ 32 := by omega
  have hsh : (f32CastU32 ((2 ^ R : ℚ) * f) <<< 4) % 2 ^ 32 =
      f32CastU32 ((2 ^ R : ℚ) * f) * 2 ^ 4 := by
    rw [Nat.shiftLeft_eq]
    exact Nat.mod_eq_of_lt hlt
  refine ⟨f32CastU32 ((2 ^ R : ℚ) * f), Nat.pos_of_ne_zero hne, ?_, Nat.mul_mod_left _ _⟩
  rw [hevs, set_duty_hw_eq, hsh]

/-- Witness for C8: at resolution 8 with fraction 1/2 on a LowSpeed
channel the accepted value 128 is written as 128 * 16 = 2048, whose low 4
bits are zero. -/
theorem set_duty_hw_shifted_write_witness :
    ∃ v, 0 < v ∧
      [HWEvent.writeDuty Speed.LowSpeed 3 2048] =
        [HWEvent.writeDuty
          (⟨Speed.LowSpeed, some ⟨true, 1, some 8⟩, Number.Channel3⟩ : Channel).speed
          (⟨Speed.LowSpeed, some ⟨true, 1, some 8⟩, Number.Channel3⟩ : Channel).number.toNat
          (v * 2 ^ 4)] ∧
      (v * 2 ^ 4) % 2 ^ 4 = 0 := by
  apply set_duty_hw_shifted_write _ ⟨true, 1, some 8⟩ 8 (1/2) _ rfl rfl (by norm_num)
  rw [set_duty_eq_of_bound _ ⟨true, 1, some 8⟩ 8 (1/2) rfl rfl]
  have hc : f32CastU32 ((2 ^ 8 : ℚ) * (1/2)) = 128 := by
    rw [f32CastU32]
    norm_num
    decide
  rw [hc, if_neg (by norm_num)]
  rfl

/-- Claim C9: set_duty is deterministic: its result and register write
depend only on the channel's speed domain and number and on the
resolution the bound timer reports, so calling it twice with the same
fraction and the same bound-timer state produces the same result, the
same duty value and the same register write.  It takes the channel by
shared reference, so (as the embedding reflects) it never mutates the
binding, the number or the speed domain. -/
theorem set_duty_deterministic (ch1 ch2 : Channel) (t1 t2 : TimerModel) (f : ℚ)
    (hsp : ch1.speed = ch2.speed) (hn : ch1.number = ch2.number)
    (hb1 : ch1.timer = some t1) (hb2 : ch2.timer = some t2)
    (hd : t1.get_duty = t2.get_duty) :
    set_duty ch1 f = set_duty ch2 f := by
  cases hd1 : t1.get_duty with
  | none =>
    rw [set_duty_of_duty_none ch1 t1 f hb1 hd1,
        set_duty_of_duty_none ch2 t2 f hb2 (hd.symm.trans hd1)]
  | some R =>
    rw [set_duty_eq_of_bound ch1 t1 R f hb1 hd1,
        set_duty_eq_of_bound ch2 t2 R f hb2 (hd.symm.trans hd1),
        set_duty_hw_eq, set_duty_hw_eq, hsp, hn]

/-- Witness for C9: two calls on channels with the same number, speed and
reported resolution (but different timer identity and configuration
flags) produce identical results and writes. -/
theorem set_duty_deterministic_witness :
    set_duty ⟨Speed.HighSpeed, some ⟨true, 0, some 8⟩, Number.Channel2⟩ (1/2) =
      set_duty ⟨Speed.HighSpeed, some ⟨false, 3, some 8⟩, Number.Channel2⟩ (1/2) :=
  set_duty_deterministic _ _ ⟨true, 0, some 8⟩ ⟨false, 3, some 8⟩ (1/2)
    rfl rfl rfl rfl rfl

/-- Claim C10: for every nonpositive fraction (0.0 or negative), set_duty
on a channel with a bound timer reporting a resolution returns the Duty
error and performs no hardware write: 2^R * f is nonpositive, the
saturating f32-to-u32 cast yields 0, and the zero check rejects it. -/
theorem set_duty_nonpos_rejected (ch : Channel) (t : TimerModel) (R : Nat) (f : ℚ)
    (hb : ch.timer = some t) (hres : t.get_duty = some R) (hf : f ≤ 0) :
    set_duty ch f = (Except.error Error.Duty, []) := by
  rw [set_duty_eq_of_bound ch t R f hb hres]
  rw [if_pos]
  left
  apply f32CastU32_of_nonpos
  have h2 : (0 : ℚ) < 2 ^ R := by positivity
  nlinarith

/-- Witness for C10: fraction 0 on a bound, configured timer of
resolution 8 yields the Duty error with no write. -/
theorem set_duty_nonpos_rejected_witness :
    set_duty ⟨Speed.LowSpeed, some ⟨true, 0, some 8⟩, Number.Channel0⟩ 0 =
      (Except.error Error.Duty, []) :=
  set_duty_nonpos_rejected _ ⟨true, 0, some 8⟩ 8 0 rfl rfl (by norm_num)

/-- Claim C3: configure stores the timer binding unconditionally, then
runs set_duty and then configure_hw, propagating the first failing step's
error unchanged and succeeding exactly when both steps succeed; because
the binding is stored before any validation, a configure that fails with
the Timer error still leaves the binding recorded, so any subsequent
set_duty re-checks the same timer and returns the Timer error rather than
the Channel error.  The hypothesis is the Timer capability contract of
the spec: an unconfigured timer reports no resolution. -/
theorem configure_binding_spec (ch : Channel) (t : TimerModel) (f : ℚ)
    (hcontract : t.is_configured = false → t.get_duty = none) :
    (configure ch ⟨t, f⟩).1 = { ch with timer := some t } ∧
    ((configure ch ⟨t, f⟩).2.1 = Except.ok () ↔
      (set_duty { ch with timer := some t } f).1 = Except.ok () ∧
      (configure_hw { ch with timer := some t }).1 = Except.ok ()) ∧
    (∀ e, (set_duty { ch with timer := some t } f).1 = Except.error e →
      (configure ch ⟨t, f⟩).2.1 = Except.error e) ∧
    (∀ e, (set_duty { ch with timer := some t } f).1 = Except.ok () →
      (configure_hw { ch with timer := some t }).1 = Except.error e →
      (configure ch ⟨t, f⟩).2.1 = Except.error e) ∧
    ((configure ch ⟨t, f⟩).2.1 = Except.error Error.Timer →
      ∀ g, set_duty (configure ch ⟨t, f⟩).1 g = (Except.error Error.Timer, [])) := by
  have hbB : ({ ch with timer := some t } : Channel).timer = some t := rfl
  rcases h1 : set_duty { ch with timer := some t } f with ⟨r1, evs1⟩
  cases r1 with
  | error e1 =>
    have hcfg : configure ch ⟨t, f⟩ =
        ({ ch with timer := some t }, Except.error e1, evs1) := by
      simp [configure, h1]
    refine ⟨by rw [hcfg], by simp [hcfg], ?_, ?_, ?_⟩
    · intro e he
      have he1 : e1 = e := by simpa using he
      subst he1
      rw [hcfg]
    · intro e he
      simp at he
    · intro he g
      rw [hcfg] at he
      have he1 : e1 = Error.Timer := by simpa using he
      subst he1
      have hd : t.get_duty = none :=
        (set_duty_timer_error_iff _ t f hbB).mp (by rw [h1])
      rw [hcfg]
      exact set_duty_of_duty_none _ t g hbB hd
  | ok u =>
    cases u
    rcases h2 : configure_hw { ch with timer := some t } with ⟨r2, evs2⟩
    cases r2 with
    | error e2 =>
      have hcfg : configure ch ⟨t, f⟩ =
          ({ ch with timer := some t }, Except.error e2, evs1 ++ evs2) := by
        simp [configure, h1, h2]
      refine ⟨by rw [hcfg], by simp [hcfg], ?_, ?_, ?_⟩
      · intro e he
        simp at he
      · intro e _ he2
        have he3 : e2 = e := by simpa using he2
        subst he3
        rw [hcfg]
      · intro he g
        rw [hcfg] at he
        have he3 : e2 = Error.Timer := by simpa using he
        subst he3
        have hnc : t.is_configured = false :=
          (configure_hw_error_inversion _ t Error.Timer hbB (by rw [h2])).1
        rw [hcfg]
        exact set_duty_of_duty_none _ t g hbB (hcontract hnc)
    | ok v =>
      cases v
      have hcfg : configure ch ⟨t, f⟩ =
          ({ ch with timer := some t }, Except.ok (), evs1 ++ evs2) := by
        simp [configure, h1, h2]
      refine ⟨by rw [hcfg], by simp [hcfg], ?_, ?_, ?_⟩
      · intro e he
        simp at he
      · intro e _ he2
        simp at he2
      · intro he g
        rw [hcfg] at he
        simp at he

/-- Witness for C3: configuring a fresh channel with an unconfigured
timer (which reports no resolution) fails with the Timer error, but the
binding is recorded and a later set_duty returns the Timer error, not the
Channel error. -/
theorem configure_binding_spec_witness :
    (configure (Channel.new Speed.LowSpeed Number.Channel0)
        ⟨⟨false, 0, none⟩, 1/2⟩).1 =
      { Channel.new Speed.LowSpeed Number.Channel0 with
          timer := some ⟨false, 0, none⟩ } ∧
    set_duty (configure (Channel.new Speed.LowSpeed Number.Channel0)
        ⟨⟨false, 0, none⟩, 1/2⟩).1 (3/4) =
      (Except.error Error.Timer, []) := by
  have h := configure_binding_spec (Channel.new Speed.LowSpeed Number.Channel0)
      ⟨false, 0, none⟩ (1/2) (fun _ => rfl)
  have hsd : set_duty { Channel.new Speed.LowSpeed Number.Channel0 with
      timer := some (⟨false, 0, none⟩ : TimerModel) } (1/2) =
      (Except.error Error.Timer, []) :=
    set_duty_of_duty_none _ ⟨false, 0, none⟩ (1/2) rfl rfl
  exact ⟨h.1, h.2.2.2.2 (h.2.2.1 Error.Timer (by rw [hsd])) (3/4)⟩

/-- Claim C4 (amended): for every LowSpeed channel, a successful
configure_hw performs the parameter-commit (para_up) write after all
channel register writes but before connecting the output pin to its
signal; for every HighSpeed channel no commit write occurs at all. -/
theorem configure_hw_commit_order (chL chH : Channel) (tL : TimerModel)
    (hbL : chL.timer = some tL) (hcL : tL.is_configured = true)
    (hspL : chL.speed = Speed.LowSpeed) (hspH : chH.speed = Speed.HighSpeed) :
    (∃ k c : Nat, k < c ∧
      ((configure_hw chL).2)[k]? = some (HWEvent.paraUp chL.number.toNat) ∧
      ((configure_hw chL).2)[c]? =
        some (HWEvent.connect (signal_of Speed.LowSpeed chL.number)) ∧
      (∀ i e, ((configure_hw chL).2)[i]? = some e →
        isChannelRegWrite e = true → i < k)) ∧
    (∀ e ∈ (configure_hw chH).2, isParaUp e = false) := by
  constructor
  · obtain ⟨spL, tmL, nL⟩ := chL
    simp only at hbL hspL
    subst hbL
    subst hspL
    rw [configure_hw_ls_trace tL nL hcL]
    exact ⟨4, 5, by omega, rfl, rfl,
      fun i e h hw => lowspeed_trace_positions _ _ _ _ i e h hw⟩
  · obtain ⟨spH, tmH, nH⟩ := chH
    simp only at hspH
    subst hspH
    cases tmH with
    | none =>
      rw [configure_hw_of_unbound _ rfl]
      simp
    | some tH =>
      cases hcH : tH.is_configured with
      | false =>
        rw [configure_hw_of_unconfigured _ tH rfl hcH]
        simp
      | true =>
        rw [configure_hw_hs_trace tH nH hcH]
        intro e he
        fin_cases he <;> rfl

/-- Witness for C4 (amended), on LowSpeed channel 0 with a configured
timer: the commit write sits at an index below the pin connection and
above every channel register write. -/
theorem configure_hw_commit_order_witness :
    ∃ k c : Nat, k < c ∧
      ((configure_hw ⟨Speed.LowSpeed, some ⟨true, 0, some 8⟩,
          Number.Channel0⟩).2)[k]? = some (HWEvent.paraUp 0) ∧
      ((configure_hw ⟨Speed.LowSpeed, some ⟨true, 0, some 8⟩,
          Number.Channel0⟩).2)[c]? =
        some (HWEvent.connect OutputSignal.LEDC_LS_SIG_0) ∧
      (∀ i e, ((configure_hw ⟨Speed.LowSpeed, some ⟨true, 0, some 8⟩,
          Number.Channel0⟩).2)[i]? = some e →
        isChannelRegWrite e = true → i < k) := by
  have h := (configure_hw_commit_order
      ⟨Speed.LowSpeed, some ⟨true, 0, some 8⟩, Number.Channel0⟩
      ⟨Speed.HighSpeed, none, Number.Channel0⟩
      ⟨true, 0, some 8⟩ rfl rfl rfl rfl).1
  simpa [Number.toNat, signal_of] using h

/-- Claim C4 counterexample: on LowSpeed channel 0 with a configured
timer, configure_hw emits the para_up commit at index 4 and the pin
connection at index 5 of its trace, so the commit write does not occur
after the pin has been connected, contrary to the claim. -/
theorem configure_hw_commit_order_cex :
    (configure_hw ⟨Speed.LowSpeed, some ⟨true, 0, some 8⟩,
        Number.Channel0⟩).2 =
      [HWEvent.setPushPull, HWEvent.writeHpoint Speed.LowSpeed 0 0,
       HWEvent.modifyConf0 Speed.LowSpeed 0 true 0,
       HWEvent.writeConf1 Speed.LowSpeed 0 true true 1 1 0,
       HWEvent.paraUp 0, HWEvent.connect OutputSignal.LEDC_LS_SIG_0] ∧
    ¬ ∃ i j : Nat, i < j ∧
      ((configure_hw ⟨Speed.LowSpeed, some ⟨true, 0, some 8⟩,
          Number.Channel0⟩).2)[i]? =
        some (HWEvent.connect OutputSignal.LEDC_LS_SIG_0) ∧
      ((configure_hw ⟨Speed.LowSpeed, some ⟨true, 0, some 8⟩,
          Number.Channel0⟩).2)[j]? = some (HWEvent.paraUp 0) := by
  have htr : (configure_hw ⟨Speed.LowSpeed, some ⟨true, 0, some 8⟩,
        Number.Channel0⟩).2 =
      [HWEvent.setPushPull, HWEvent.writeHpoint Speed.LowSpeed 0 0,
       HWEvent.modifyConf0 Speed.LowSpeed 0 true 0,
       HWEvent.writeConf1 Speed.LowSpeed 0 true true 1 1 0,
       HWEvent.paraUp 0, HWEvent.connect OutputSignal.LEDC_LS_SIG_0] := rfl
  refine ⟨htr, ?_⟩
  rw [htr]
  rintro ⟨i, j, hij, hi, hj⟩
  rcases i with _|_|_|_|_|_|m
  · simp at hi
  · simp at hi
  · simp at hi
  · simp at hi
  · simp at hi
  · obtain ⟨m, rfl⟩ : ∃ m, j = m + 6 := ⟨j - 6, by omega⟩
    simp at hj
  · simp at hi

/-- Claim C6: a successful configure_hw, in either speed domain, sets the
output pin to push-pull, writes the channel's hpoint register to 0,
programs the selection register with output enable set and the timer
selector equal to the bound timer's number, writes the fixed ramp
parameters (duty_start set, duty_inc set, duty_num 1, duty_cycle 1,
duty_scale 0), and connects the pin to the fixed output signal of the
(speed domain, channel number) pair. -/
theorem configure_hw_register_values (ch : Channel) (t : TimerModel)
    (hb : ch.timer = some t) (hc : t.is_configured = true) :
    (configure_hw ch).1 = Except.ok () ∧
    HWEvent.setPushPull ∈ (configure_hw ch).2 ∧
    HWEvent.writeHpoint ch.speed ch.number.toNat 0 ∈ (configure_hw ch).2 ∧
    HWEvent.modifyConf0 ch.speed ch.number.toNat true t.get_number ∈
      (configure_hw ch).2 ∧
    HWEvent.writeConf1 ch.speed ch.number.toNat true true 1 1 0 ∈
      (configure_hw ch).2 ∧
    HWEvent.connect (signal_of ch.speed ch.number) ∈ (configure_hw ch).2 := by
  obtain ⟨sp, tm, n⟩ := ch
  simp only at hb
  subst hb
  cases sp <;> cases n <;>
    simp [configure_hw, hc, set_channel, update_channel, signal_of, Number.toNat]

/-- Witness for C6 on LowSpeed channel 6 bound to configured timer 2. -/
theorem configure_hw_register_values_witness :
    (configure_hw ⟨Speed.LowSpeed, some ⟨true, 2, some 8⟩,
        Number.Channel6⟩).1 = Except.ok () ∧
    HWEvent.modifyConf0 Speed.LowSpeed 6 true 2 ∈
      (configure_hw ⟨Speed.LowSpeed, some ⟨true, 2, some 8⟩,
        Number.Channel6⟩).2 ∧
    HWEvent.connect OutputSignal.LEDC_LS_SIG_6 ∈
      (configure_hw ⟨Speed.LowSpeed, some ⟨true, 2, some 8⟩,
        Number.Channel6⟩).2 := by
  have h := configure_hw_register_values
      ⟨Speed.LowSpeed, some ⟨true, 2, some 8⟩, Number.Channel6⟩
      ⟨true, 2, some 8⟩ rfl rfl
  exact ⟨h.1, by simpa [Number.toNat] using h.2.2.2.1,
    by simpa [signal_of] using h.2.2.2.2.2⟩

/-- Claim C7: configure_hw can only fail with the Timer error, it does so
exactly when the bound timer is absent or reports itself unconfigured,
and on failure its trace is empty, so the check precedes every register
write and pin-mode change; once writes begin it always succeeds. -/
theorem configure_hw_error_spec (ch : Channel) :
    ((configure_hw ch).1 ≠ Except.ok () →
      configure_hw ch = (Except.error Error.Timer, [])) ∧
    ((configure_hw ch).1 = Except.error Error.Timer ↔
      ch.timer = none ∨ ∃ t, ch.timer = some t ∧ t.is_configured = false) := by
  cases hb : ch.timer with
  | none =>
    rw [configure_hw_of_unbound ch hb]
    exact ⟨fun _ => rfl, by simp⟩
  | some t =>
    cases hc : t.is_configured with
    | false =>
      rw [configure_hw_of_unconfigured ch t hb hc]
      refine ⟨fun _ => rfl, ?_, fun _ => rfl⟩
      intro _
      exact Or.inr ⟨t, rfl, hc⟩
    | true =>
      have hok := configure_hw_ok_of_configured ch t hb hc
      constructor
      · intro hne
        exact absurd hok hne
      · rw [hok]
        constructor
        · intro he
          simp at he
        · rintro (h | ⟨t2, ht2, hc2⟩)
          · simp at h
          · injection ht2 with h2
            subst h2
            rw [hc] at hc2
            simp at hc2

/-- Witness for C7: a channel bound to an unconfigured timer fails with
the Timer error and an empty trace. -/
theorem configure_hw_error_spec_witness :
    configure_hw ⟨Speed.HighSpeed, some ⟨false, 1, none⟩,
        Number.Channel4⟩ = (Except.error Error.Timer, []) := by
  have h := (configure_hw_error_spec
      ⟨Speed.HighSpeed, some ⟨false, 1, none⟩, Number.Channel4⟩).1
  apply h
  rw [configure_hw_of_unconfigured _ ⟨false, 1, none⟩ rfl rfl]
  simp

end Esp32Ledc
